import Mathlib

/-!
# Verification of the fiber-otel metrics aggregator and request handlers

Shallow embedding of `src/internal/metrics/metrics.go` and the HTTP route
handlers of `src/main.go` (and the simplified variant) of the
`crazyuploader/fiber-otel` repository.

Go's `int64` arithmetic (used by `sync/atomic.AddInt64` / `StoreInt64` /
`LoadInt64` and by `errorCount++`) wraps around in two's complement; we model
an `int64` value as an `Int` in the range `[-2^63, 2^63)` and make the wrap
explicit with `wrap64`.
-/

namespace FiberOtel

/-- Two's-complement wrap of a mathematical integer into the signed 64-bit
range `[-2^63, 2^63)`; this is the result Go's `int64` arithmetic produces. -/
def wrap64 (z : Int) : Int :=
  (z + 9223372036854775808) % 18446744073709551616 - 9223372036854775808

/-- `z` lies in the representable range of a Go `int64`. -/
def isInt64 (z : Int) : Prop :=
  -9223372036854775808 ≤ z ∧ z < 9223372036854775808

instance (z : Int) : Decidable (isInt64 z) := by
  unfold isInt64; infer_instance

theorem wrap64_isInt64 (z : Int) : isInt64 (wrap64 z) := by
  unfold wrap64 isInt64
  constructor <;> omega

theorem wrap64_eq_self {z : Int} (h : isInt64 z) : wrap64 z = z := by
  unfold wrap64
  unfold isInt64 at h
  omega

theorem wrap64_add_right (a b : Int) : wrap64 (a + wrap64 b) = wrap64 (a + b) := by
  unfold wrap64
  omega

theorem wrap64_emod (z : Int) :
    wrap64 z % 18446744073709551616 = z % 18446744073709551616 := by
  unfold wrap64
  omega

/-!
## The metrics aggregator (`src/internal/metrics/metrics.go`)

The `Metrics` struct owns three telemetry instruments plus the gauge's local
backing store `totalCartItems`.  We model the accumulated state of each
instrument: the running sum of the `Int64Counter` (an `int64` inside the
OpenTelemetry SDK), the sequence of samples recorded into the
`Float64Histogram` (as exact rationals), and the `int64` backing variable of
the observable gauge.
-/

/-- State of the `Metrics` struct: accumulated counter value, recorded
histogram samples, and the gauge backing store `totalCartItems`. -/
structure Metrics where
  errorTotal : Int
  latencySamples : List ℚ
  totalCartItems : Int
  deriving Repr, DecidableEq

/-- `ErrorCount.Add(ctx, incr)`: the `Int64Counter` accumulates its `int64`
running sum (two's-complement wrap on overflow). -/
def ErrorCountAdd (m : Metrics) (incr : Int) : Metrics :=
  { m with errorTotal := wrap64 (m.errorTotal + incr) }

/-- `RequestLatency.Record(ctx, sample)`: appends one sample to the
histogram. -/
def RequestLatencyRecord (m : Metrics) (sample : ℚ) : Metrics :=
  { m with latencySamples := m.latencySamples ++ [sample] }

/-- `func (m *Metrics) SetItemsInCart(ctx, value)`:
`atomic.StoreInt64(&m.totalCartItems, value)`. -/
def SetItemsInCart (m : Metrics) (value : Int) : Metrics :=
  { m with totalCartItems := wrap64 value }

/-- `func (m *Metrics) AddItemsInCart(ctx, value)`:
`atomic.AddInt64(&m.totalCartItems, value)` — a single atomic fetch-and-add,
wrapping in two's complement. -/
def AddItemsInCart (m : Metrics) (value : Int) : Metrics :=
  { m with totalCartItems := wrap64 (m.totalCartItems + value) }

/-- `func (m *Metrics) ReduceItemsInCart(ctx, value)`:
`atomic.AddInt64(&m.totalCartItems, -value)` — a single atomic add of the
`int64`-negated delta (the negation itself wraps). -/
def ReduceItemsInCart (m : Metrics) (value : Int) : Metrics :=
  { m with totalCartItems := wrap64 (m.totalCartItems + wrap64 (-value)) }

/-- `func (m *Metrics) GetTotalItemsInCart() int64`:
`atomic.LoadInt64(&m.totalCartItems)`. -/
def GetTotalItemsInCart (m : Metrics) : Int :=
  m.totalCartItems

/-- State of the `metric.Observer` handed to the registered callback by the
export cycle: the list of values observed on the gauge instrument. -/
structure ObserverState where
  observations : List Int
  deriving Repr, DecidableEq

/-- `observer.ObserveInt64(m.CartItems, v)`: records one observation. -/
def ObserveInt64 (o : ObserverState) (v : Int) : ObserverState :=
  { observations := o.observations ++ [v] }

/-- The closure registered with `meter.RegisterCallback` in `NewMetric`:
loads `totalCartItems` atomically, observes it on the gauge instrument, and
returns `nil`.  Result: (metrics state after the call, observer state after
the call, returned error). -/
def registeredCallback (m : Metrics) (observer : ObserverState) :
    Metrics × ObserverState × Option String :=
  let currentValue := m.totalCartItems
  let observer := ObserveInt64 observer currentValue
  (m, observer, none)

/-!
## Instrument creation configuration (`NewMetric`)

`NewMetric` creates the three instruments with a name and a description; the
histogram creation in `src/internal/metrics/metrics.go` passes no explicit
bucket boundaries.
-/

/-- Static configuration a histogram instrument is created with. -/
structure HistogramConfig where
  name : String
  description : String
  explicitBucketBoundaries : Option (List ℚ)
  deriving Repr, DecidableEq

/-- The `Float64Histogram` creation in `src/internal/metrics/metrics.go`:
`meter.Float64Histogram("http.request_duration", metric.WithDescription(...))`
— no explicit bucket boundaries are passed. -/
def requestLatencyConfig : HistogramConfig :=
  { name := "http.request_duration"
    description := "Total duration of a request"
    explicitBucketBoundaries := none }

/-- Modelled from the spec: the repository's other variant of `NewMetric`
(not present under `src/`) creates the request-duration histogram "with fixed
explicit bucket boundaries".  The spec fixes only that the boundaries are an
explicitly supplied, fixed configuration (not mutated at runtime); the model
uses a representative constant boundary list. -/
def requestLatencyConfigBucketed : HistogramConfig :=
  { name := "http.request_duration"
    description := "Total duration of a request"
    explicitBucketBoundaries :=
      some [1/1000, 5/1000, 1/100, 5/100, 1/10, 5/10, 1, 5, 10] }

/-!
## The request handlers (`src/main.go`)

Every route is a `GET` handler mapping one request to at most one aggregator
call plus a JSON response.  The full server state is the `Metrics` struct
plus the local `errorCount` tally (a Go `int`, i.e. `int64`) captured by the
`/error` closure.

`c.QueryInt("count")` parses the query parameter with `strconv.Atoi` and
returns `0` whenever the parameter is absent or non-numeric; we model the
parameter as `Option Int`: `none` for "absent or unparsable", `some n` for a
parameter that parses to the integer `n`.

Responses are modelled structurally: HTTP status code plus the JSON fields
the handlers actually set.
-/

/-- `c.QueryInt("count")`: the parsed value, or the default `0` when the
parameter is absent or fails to parse. -/
def queryInt (param : Option Int) : Int :=
  match param with
  | none => 0
  | some n => n

/-- A JSON response together with its HTTP status code.  Fields that a
handler does not set stay `none`. -/
structure Response where
  statusCode : Nat := 200
  status : Option String := none
  message : Option String := none
  error : Option String := none
  items : Option Int := none
  responseTimeNs : Option Int := none
  deriving Repr, DecidableEq

/-- One inbound HTTP request.  `latency` carries the externally measured
elapsed handling time in nanoseconds (a Go `time.Duration`); `cartAdd` and
`cartReduce` carry the `count` query parameter. -/
inductive Request where
  | root
  | error
  | latency (elapsedNs : Int)
  | cart
  | cartAdd (count : Option Int)
  | cartReduce (count : Option Int)
  deriving Repr, DecidableEq

/-- Full server state: the aggregator plus the `/error` closure's local
`errorCount` tally. -/
structure ServerState where
  metrics : Metrics
  errorCount : Int
  deriving Repr, DecidableEq

/-- `time.Since(initialTime).Seconds()` applied to an elapsed duration of
`elapsedNs` nanoseconds, as an exact rational. -/
def durationSeconds (elapsedNs : Int) : ℚ :=
  (elapsedNs : ℚ) / 1000000000

/-- `time.Since(initialTime).Milliseconds()` applied to an elapsed duration
of `elapsedNs` nanoseconds: Go integer division truncates toward zero. -/
def durationMilliseconds (elapsedNs : Int) : Int :=
  Int.tdiv elapsedNs 1000000

/-- The route handlers of `src/main.go`, one step of the server: dispatch a
request against the current state, producing the next state and the
response. -/
def handle (st : ServerState) (req : Request) : ServerState × Response :=
  match req with
  | .root =>
      (st, { status := some "ok" })
  | .error =>
      let st := { st with errorCount := wrap64 (st.errorCount + 1) }
      let st := { st with metrics := ErrorCountAdd st.metrics 1 }
      (st, { statusCode := 500, error := some "simulated error" })
  | .latency elapsedNs =>
      let duration := durationSeconds elapsedNs
      let st := { st with metrics := RequestLatencyRecord st.metrics duration }
      (st, { status := some "ok", responseTimeNs := some elapsedNs })
  | .cart =>
      let totalItemsInCart := GetTotalItemsInCart st.metrics
      (st, { status := some "ok", items := some totalItemsInCart })
  | .cartAdd count =>
      let countInt := queryInt count
      if countInt = 0 then
        (st, { statusCode := 400,
               error := some "invalid count, it should be a number" })
      else
        let st := { st with metrics := AddItemsInCart st.metrics countInt }
        (st, { status := some "ok", message := some "Added items",
               items := some (GetTotalItemsInCart st.metrics) })
  | .cartReduce count =>
      let countInt := queryInt count
      if countInt = 0 then
        (st, { statusCode := 400,
               error := some "invalid count, it should be a number" })
      else
        let st := { st with metrics := ReduceItemsInCart st.metrics countInt }
        (st, { status := some "ok", message := some "Reduced items",
               items := some (GetTotalItemsInCart st.metrics) })

/-- The `/latency` handler of the simplified variant (`src/unnamed/part_000`):
it records `time.Since(initialTime).Milliseconds()` — an integer number of
milliseconds converted to `float64` — instead of `.Seconds()`. -/
def handleLatencySimplified (st : ServerState) (elapsedNs : Int) :
    ServerState × Response :=
  let duration := durationMilliseconds elapsedNs
  let st := { st with metrics := RequestLatencyRecord st.metrics (duration : ℚ) }
  (st, { status := some "ok", responseTimeNs := some elapsedNs })

/-- The server's initial state: the gauge "initial value is zero", no error
increments yet, no histogram samples. -/
def initialState : ServerState :=
  { metrics := { errorTotal := 0, latencySamples := [], totalCartItems := 0 }
    errorCount := 0 }

/-!
## Sequences of gauge mutations and of `/error` requests
-/

/-- One call in a sequence of gauge mutations: `AddItemsInCart d` or
`ReduceItemsInCart d`. -/
inductive CartOp where
  | add (d : Int)
  | reduce (d : Int)
  deriving Repr, DecidableEq

/-- Apply one gauge mutation. -/
def applyCartOp (m : Metrics) : CartOp → Metrics
  | .add d => AddItemsInCart m d
  | .reduce d => ReduceItemsInCart m d

/-- Run a finite sequence of `AddItemsInCart`/`ReduceItemsInCart` calls. -/
def runCartOps (m : Metrics) (ops : List CartOp) : Metrics :=
  ops.foldl applyCartOp m

/-- The signed sum of a sequence's deltas: each add contributes `+d`, each
reduce contributes `-d`. -/
def signedSum : List CartOp → Int
  | [] => 0
  | .add d :: rest => d + signedSum rest
  | .reduce d :: rest => -d + signedSum rest

/-- Iterate the `/error` handler `k` times. -/
def iterError : Nat → ServerState → ServerState
  | 0, st => st
  | k + 1, st => (handle (iterError k st) .error).1

theorem wrap64_add_left (a b : Int) : wrap64 (wrap64 a + b) = wrap64 (a + b) := by
  unfold wrap64
  omega

theorem runCartOps_total (m : Metrics) (ops : List CartOp)
    (h : isInt64 m.totalCartItems) :
    (runCartOps m ops).totalCartItems =
      wrap64 (m.totalCartItems + signedSum ops) := by
  induction ops generalizing m with
  | nil =>
      simp only [runCartOps, List.foldl_nil, signedSum, Int.add_zero]
      exact (wrap64_eq_self h).symm
  | cons op rest ih =>
      have hstep : runCartOps m (op :: rest) = runCartOps (applyCartOp m op) rest := rfl
      rw [hstep, ih (applyCartOp m op) (by
        cases op <;>
          simp only [applyCartOp, AddItemsInCart, ReduceItemsInCart] <;>
          exact wrap64_isInt64 _)]
      cases op with
      | add d =>
          simp only [applyCartOp, AddItemsInCart, signedSum]
          unfold wrap64
          omega
      | reduce d =>
          simp only [applyCartOp, ReduceItemsInCart, signedSum]
          unfold wrap64
          omega

/-- **C1, counterexample.**  Starting from the representable gauge value
`2^63 - 1`, the single call `AddItemsInCart 1` wraps: `GetTotalItemsInCart`
returns `-2^63`, not `(2^63 - 1) + 1`. -/
theorem c1_counterexample :
    GetTotalItemsInCart
      (runCartOps
        { errorTotal := 0, latencySamples := [], totalCartItems := 9223372036854775807 }
        [CartOp.add 1]) ≠ 9223372036854775807 + 1 := by
  simp only [runCartOps, List.foldl_cons, List.foldl_nil, applyCartOp,
    AddItemsInCart, GetTotalItemsInCart]
  unfold wrap64
  decide

/-- **C1, amended.**  For every in-range initial gauge value and every finite
sequence of `AddItemsInCart`/`ReduceItemsInCart` calls, `GetTotalItemsInCart`
afterwards returns the two's-complement wrap (mod `2^64`) of
`initial + Σ signed deltas` — equality holds exactly whenever that signed sum
does not overflow `int64`; no update is lost. -/
theorem c1_gauge_sum (m : Metrics) (ops : List CartOp)
    (h : isInt64 (GetTotalItemsInCart m)) :
    GetTotalItemsInCart (runCartOps m ops) =
      wrap64 (GetTotalItemsInCart m + signedSum ops) :=
  runCartOps_total m ops h

/-- **C1, witness.**  Concrete run: from gauge `0`, the sequence
add 5, reduce 2, add 4 yields `7 = wrap64 (0 + 7)`. -/
theorem c1_gauge_sum_witness :
    isInt64 (GetTotalItemsInCart initialState.metrics) ∧
      GetTotalItemsInCart
        (runCartOps initialState.metrics [CartOp.add 5, CartOp.reduce 2, CartOp.add 4]) =
        wrap64 (GetTotalItemsInCart initialState.metrics +
          signedSum [CartOp.add 5, CartOp.reduce 2, CartOp.add 4]) :=
  ⟨by decide, c1_gauge_sum initialState.metrics
    [CartOp.add 5, CartOp.reduce 2, CartOp.add 4] (by decide)⟩

/-- **C2.**  In every server state, `GET /cart/add` with `count=0` and with
the parameter absent (and likewise `GET /cart/reduce`) returns HTTP 400 with
the descriptive error message `"invalid count, it should be a number"` and
returns the state unchanged: the gauge keeps its value and no aggregator
mutation happens on this path. -/
theorem c2_zero_count_rejected (st : ServerState) :
    handle st (.cartAdd (some 0)) =
      (st, { statusCode := 400, error := some "invalid count, it should be a number" }) ∧
    handle st (.cartAdd none) =
      (st, { statusCode := 400, error := some "invalid count, it should be a number" }) ∧
    handle st (.cartReduce (some 0)) =
      (st, { statusCode := 400, error := some "invalid count, it should be a number" }) ∧
    handle st (.cartReduce none) =
      (st, { statusCode := 400, error := some "invalid count, it should be a number" }) :=
  ⟨rfl, rfl, rfl, rfl⟩

theorem iterError_errorTotal (k : Nat) (h : (k : Int) < 9223372036854775808) :
    (iterError k initialState).metrics.errorTotal = (k : Int) := by
  induction k with
  | zero => rfl
  | succ k ih =>
      have hk : (k : Int) < 9223372036854775808 := by push_cast at h ⊢; omega
      simp only [iterError, handle, ErrorCountAdd]
      rw [ih hk]
      rw [wrap64_eq_self (by
        unfold isInt64
        push_cast at h ⊢
        omega)]
      push_cast
      ring

/-- **C3, counterexample.**  Starting from the zero counter, `2^63` calls of
the `/error` handler leave the counter at `-2^63` (the `int64` running sum
wraps), not at `2^63`: "for every natural number k … exactly k" fails at
`k = 2^63`. -/
theorem c3_counterexample :
    (iterError 9223372036854775808 initialState).metrics.errorTotal ≠
      (9223372036854775808 : Int) := by
  have h0 : (9223372036854775808 : Nat) = 9223372036854775807 + 1 := by norm_num
  have hsucc : ∀ (k : Nat) (st : ServerState),
      iterError (k + 1) st = (handle (iterError k st) .error).1 := fun _ _ => rfl
  have hstep : ∀ st : ServerState,
      (handle st .error).1.metrics.errorTotal = wrap64 (st.metrics.errorTotal + 1) :=
    fun _ => rfl
  rw [h0, hsucc, hstep, iterError_errorTotal 9223372036854775807 (by norm_num)]
  unfold wrap64
  decide

/-- **C3, amended.**  For every `k < 2^63`, calling the `/error` handler `k`
times from the zero counter yields an error counter of exactly `k`; each
`/error` call mutates the counter by exactly the two's-complement add of `1`
(so the counter is non-decreasing while below `int64` max), and no other
operation of the server changes it — it is never reset during the process
lifetime. -/
theorem c3_error_counter (k : Nat) (h : (k : Int) < 9223372036854775808) :
    (iterError k initialState).metrics.errorTotal = (k : Int) ∧
    (∀ st : ServerState,
        (handle st .error).1.metrics.errorTotal = wrap64 (st.metrics.errorTotal + 1)) ∧
    (∀ (st : ServerState) (req : Request), req ≠ .error →
        (handle st req).1.metrics.errorTotal = st.metrics.errorTotal) := by
  refine ⟨iterError_errorTotal k h, fun st => rfl, fun st req hreq => ?_⟩
  cases req with
  | root => rfl
  | error => exact absurd rfl hreq
  | latency elapsedNs => rfl
  | cart => rfl
  | cartAdd count => simp only [handle]; split <;> rfl
  | cartReduce count => simp only [handle]; split <;> rfl

/-- **C3, witness.**  Three `/error` calls from the zero counter yield 3. -/
theorem c3_error_counter_witness :
    ((3 : Nat) : Int) < 9223372036854775808 ∧
      (iterError 3 initialState).metrics.errorTotal = ((3 : Nat) : Int) :=
  ⟨by norm_num, (c3_error_counter 3 (by norm_num)).1⟩

/-- **C4.**  Starting from the initial state (gauge `0`), the sequence
`GET /cart/add?count=5`, `GET /cart/reduce?count=2`, `GET /cart` produces the
responses `{status:"ok", message:"Added items", updated_items:5}`,
`{status:"ok", message:"Reduced items", updated_items:3}` and
`{status:"ok", total_items:3}`, each with HTTP 200; moreover in every state,
whenever the count parameter passes validation, the `updated_items` field
equals the gauge value read after the handler's mutation, and `total_items`
equals the gauge value the `/cart` handler reads. -/
theorem c4_cart_scenario (st : ServerState) (p : Option Int)
    (hp : queryInt p ≠ 0) :
    ((handle initialState (.cartAdd (some 5))).2 =
        { status := some "ok", message := some "Added items", items := some 5 } ∧
      (handle (handle initialState (.cartAdd (some 5))).1 (.cartReduce (some 2))).2 =
        { status := some "ok", message := some "Reduced items", items := some 3 } ∧
      (handle (handle (handle initialState (.cartAdd (some 5))).1
          (.cartReduce (some 2))).1 .cart).2 =
        { status := some "ok", items := some 3 }) ∧
    (handle st (.cartAdd p)).2.items =
      some (GetTotalItemsInCart (handle st (.cartAdd p)).1.metrics) ∧
    (handle st (.cartReduce p)).2.items =
      some (GetTotalItemsInCart (handle st (.cartReduce p)).1.metrics) ∧
    (handle st .cart).2.items = some (GetTotalItemsInCart st.metrics) := by
  refine ⟨⟨by decide, by decide, by decide⟩, ?_, ?_, rfl⟩
  · simp only [handle]
    rw [if_neg hp]
  · simp only [handle]
    rw [if_neg hp]

/-- **C4, witness.**  `count=5` passes validation, and the response's
`updated_items` equals the gauge value after the mutation. -/
theorem c4_cart_scenario_witness :
    queryInt (some 5) ≠ 0 ∧
      (handle initialState (.cartAdd (some 5))).2.items =
        some (GetTotalItemsInCart (handle initialState (.cartAdd (some 5))).1.metrics) :=
  ⟨by decide, (c4_cart_scenario initialState (some 5) (by decide)).2.1⟩

/-- **C6.**  For every gauge state and every delta, `ReduceItemsInCart d`
produces exactly the same aggregator state as `AddItemsInCart (-d)`: the
subtraction is the single atomic add of the negated delta. -/
theorem c6_reduce_is_add_neg (m : Metrics) (value : Int) :
    ReduceItemsInCart m value = AddItemsInCart m (-value) := by
  have h : wrap64 (m.totalCartItems + wrap64 (-value)) =
      wrap64 (m.totalCartItems + -value) := wrap64_add_right _ _
  simp [ReduceItemsInCart, AddItemsInCart, h]

/-- **C7.**  Invoking the registered observation callback reads the current
gauge value, hands exactly that value to the supplied observer, returns no
error, and leaves the whole aggregator state — counter, histogram and
gauge — unchanged. -/
theorem c7_callback_frame (m : Metrics) (observer : ObserverState) :
    (registeredCallback m observer).1 = m ∧
    (registeredCallback m observer).2.1.observations =
      observer.observations ++ [GetTotalItemsInCart m] ∧
    (registeredCallback m observer).2.2 = none ∧
    (registeredCallback m observer).1.errorTotal = m.errorTotal ∧
    (registeredCallback m observer).1.latencySamples = m.latencySamples ∧
    (registeredCallback m observer).1.totalCartItems = m.totalCartItems :=
  ⟨rfl, rfl, rfl, rfl, rfl, rfl⟩

/-- **C8.**  `SetItemsInCart`, `AddItemsInCart` and `ReduceItemsInCart` are
total over every integer input: each always produces a representable `int64`
gauge value that is congruent mod `2^64` to the unguarded mathematical
result (`value`, `old + value`, `old - value` respectively) — i.e. overflow
wraps in two's complement with no guard and no clamping — and the gauge may
go negative: reducing the zero gauge by 5 yields `-5` with no floor. -/
theorem c8_gauge_totality (m : Metrics) (value : Int) :
    isInt64 (SetItemsInCart m value).totalCartItems ∧
    (SetItemsInCart m value).totalCartItems % 18446744073709551616 =
      value % 18446744073709551616 ∧
    isInt64 (AddItemsInCart m value).totalCartItems ∧
    (AddItemsInCart m value).totalCartItems % 18446744073709551616 =
      (m.totalCartItems + value) % 18446744073709551616 ∧
    isInt64 (ReduceItemsInCart m value).totalCartItems ∧
    (ReduceItemsInCart m value).totalCartItems % 18446744073709551616 =
      (m.totalCartItems - value) % 18446744073709551616 ∧
    GetTotalItemsInCart (ReduceItemsInCart initialState.metrics 5) = -5 := by
  refine ⟨wrap64_isInt64 _, wrap64_emod _, wrap64_isInt64 _, wrap64_emod _,
    wrap64_isInt64 _, ?_, by decide⟩
  simp only [ReduceItemsInCart]
  unfold wrap64
  omega

/-- **C9.**  The simplified-export variant's histogram instrument is created
with a fixed explicit bucket-boundary configuration, while the variant under
`src/internal/metrics/metrics.go` passes no explicit bucket boundaries; both
configurations are compile-time constants, not mutated at runtime. -/
theorem c9_histogram_buckets :
    requestLatencyConfigBucketed.explicitBucketBoundaries.isSome = true ∧
    requestLatencyConfig.explicitBucketBoundaries = none ∧
    requestLatencyConfigBucketed.name = requestLatencyConfig.name :=
  ⟨rfl, rfl, rfl⟩

/-- **C5, counterexample.**  In the simplified variant the `/latency` handler
records `time.Since(...).Milliseconds()`, not seconds: for an elapsed time of
`3000000000` ns (the fixed 3 s delay) the recorded sample is `3000`, while
the elapsed duration expressed in seconds is `3`. -/
theorem c5_counterexample :
    (handleLatencySimplified initialState 3000000000).1.metrics.latencySamples =
      [(3000 : ℚ)] ∧
    (3000 : ℚ) ≠ durationSeconds 3000000000 := by
  constructor
  · decide
  · unfold durationSeconds
    norm_num

/-- **C5, amended.**  For an elapsed handling time of `elapsedNs ≥ 0`
nanoseconds bounded by `B` (the maximum simulated delay plus scheduling
overhead), the `/latency` handler of the main variant appends exactly one
histogram sample, the elapsed duration expressed in seconds, which is
non-negative and at most `B` seconds; the simplified variant appends the
elapsed duration expressed in (truncated) milliseconds, likewise
non-negative and at most `B` milliseconds. -/
theorem c5_latency_sample (st : ServerState) (elapsedNs B : Int)
    (h0 : 0 ≤ elapsedNs) (hB : elapsedNs ≤ B) :
    (handle st (.latency elapsedNs)).1.metrics.latencySamples =
      st.metrics.latencySamples ++ [durationSeconds elapsedNs] ∧
    0 ≤ durationSeconds elapsedNs ∧
    durationSeconds elapsedNs ≤ (B : ℚ) / 1000000000 ∧
    (handleLatencySimplified st elapsedNs).1.metrics.latencySamples =
      st.metrics.latencySamples ++ [(durationMilliseconds elapsedNs : ℚ)] ∧
    0 ≤ (durationMilliseconds elapsedNs : ℚ) ∧
    (durationMilliseconds elapsedNs : ℚ) ≤ (B : ℚ) / 1000000 := by
  refine ⟨rfl, ?_, ?_, rfl, ?_, ?_⟩
  · unfold durationSeconds
    apply div_nonneg _ (by norm_num)
    exact_mod_cast h0
  · unfold durationSeconds
    rw [div_le_div_iff_of_pos_right (by norm_num)]
    exact_mod_cast hB
  · unfold durationMilliseconds
    exact_mod_cast Int.tdiv_nonneg h0 (by norm_num)
  · unfold durationMilliseconds
    rw [le_div_iff₀ (by norm_num)]
    have h1 : Int.tdiv elapsedNs 1000000 = elapsedNs / 1000000 :=
      Int.tdiv_eq_ediv h0 (by norm_num)
    have h2 : elapsedNs / 1000000 * 1000000 ≤ B :=
      le_trans (Int.ediv_mul_le elapsedNs (by norm_num)) hB
    rw [h1]
    exact_mod_cast h2

/-- **C5, witness.**  A 50 ms elapsed time within a 100 ms bound: the main
variant records `0.05` s, the simplified variant `50` ms. -/
theorem c5_latency_sample_witness :
    (0 : Int) ≤ 50000000 ∧ (50000000 : Int) ≤ 100000000 ∧
      ((handle initialState (.latency 50000000)).1.metrics.latencySamples =
          initialState.metrics.latencySamples ++ [durationSeconds 50000000] ∧
        0 ≤ durationSeconds 50000000 ∧
        durationSeconds 50000000 ≤ (100000000 : ℚ) / 1000000000 ∧
        (handleLatencySimplified initialState 50000000).1.metrics.latencySamples =
          initialState.metrics.latencySamples ++ [(durationMilliseconds 50000000 : ℚ)] ∧
        0 ≤ (durationMilliseconds 50000000 : ℚ) ∧
        (durationMilliseconds 50000000 : ℚ) ≤ (100000000 : ℚ) / 1000000) :=
  ⟨by norm_num, by norm_num,
    c5_latency_sample initialState 50000000 100000000 (by norm_num) (by norm_num)⟩

/-- **C10, counterexample.**  Negative counts are accepted, but the "reduce
increases the gauge by `|N|`" direction fails at `N = -2^63`: Go's negation
of `MinInt64` wraps to `MinInt64` itself, so from the fresh zero gauge
`GET /cart/reduce?count=-9223372036854775808` is accepted with HTTP 200 yet
*decreases* the gauge to `-2^63` instead of increasing it by `|N| = 2^63`. -/
theorem c10_counterexample :
    (handle initialState (.cartReduce (some (-9223372036854775808)))).2.statusCode = 200 ∧
    (handle initialState
        (.cartReduce (some (-9223372036854775808)))).1.metrics.totalCartItems =
      -9223372036854775808 ∧
    (-9223372036854775808 : Int) ≠
      initialState.metrics.totalCartItems + |(-9223372036854775808 : Int)| :=
  ⟨by decide, by decide, by decide⟩

/-- **C10, amended.**  The cart mutation routes return HTTP 400 exactly when
the parsed count equals 0; every negative count `N` passes validation with
HTTP 200 and inverts the route's nominal direction in two's-complement
arithmetic: after `/cart/add?count=N` the gauge is congruent to
`old - |N|` mod `2^64` (and equals `old - |N|` whenever that value is a
representable `int64`), and after `/cart/reduce?count=N` it is congruent to
`old + |N|` mod `2^64` (and equals `old + |N|` whenever representable). -/
theorem c10_negative_counts (st : ServerState) (N : Int) (hN : N < 0) :
    (∀ p : Option Int,
      ((handle st (.cartAdd p)).2.statusCode = 400 ↔ queryInt p = 0) ∧
      ((handle st (.cartReduce p)).2.statusCode = 400 ↔ queryInt p = 0)) ∧
    (handle st (.cartAdd (some N))).2.statusCode = 200 ∧
    (handle st (.cartAdd (some N))).1.metrics.totalCartItems %
        18446744073709551616 =
      (st.metrics.totalCartItems - |N|) % 18446744073709551616 ∧
    (handle st (.cartReduce (some N))).2.statusCode = 200 ∧
    (handle st (.cartReduce (some N))).1.metrics.totalCartItems %
        18446744073709551616 =
      (st.metrics.totalCartItems + |N|) % 18446744073709551616 ∧
    (isInt64 (st.metrics.totalCartItems - |N|) →
      (handle st (.cartAdd (some N))).1.metrics.totalCartItems =
        st.metrics.totalCartItems - |N|) ∧
    (isInt64 (st.metrics.totalCartItems + |N|) →
      (handle st (.cartReduce (some N))).1.metrics.totalCartItems =
        st.metrics.totalCartItems + |N|) := by
  have hne : queryInt (some N) ≠ 0 := ne_of_lt hN
  have habs : |N| = -N := abs_of_neg hN
  have haddT : (handle st (.cartAdd (some N))).1.metrics.totalCartItems =
      wrap64 (st.metrics.totalCartItems + N) := by
    show (if queryInt (some N) = 0 then _
        else _ : ServerState × Response).1.metrics.totalCartItems = _
    rw [if_neg hne]
    rfl
  have hredT : (handle st (.cartReduce (some N))).1.metrics.totalCartItems =
      wrap64 (st.metrics.totalCartItems + wrap64 (-N)) := by
    show (if queryInt (some N) = 0 then _
        else _ : ServerState × Response).1.metrics.totalCartItems = _
    rw [if_neg hne]
    rfl
  have haddS : (handle st (.cartAdd (some N))).2.statusCode = 200 := by
    show (if queryInt (some N) = 0 then _ else _ : ServerState × Response).2.statusCode = 200
    rw [if_neg hne]
  have hredS : (handle st (.cartReduce (some N))).2.statusCode = 200 := by
    show (if queryInt (some N) = 0 then _ else _ : ServerState × Response).2.statusCode = 200
    rw [if_neg hne]
  refine ⟨fun p => ?_, haddS, ?_, hredS, ?_, fun h => ?_, fun h => ?_⟩
  · by_cases hp : queryInt p = 0 <;>
      constructor <;> simp [handle, hp]
  · rw [haddT, habs, sub_neg_eq_add]
    exact wrap64_emod _
  · rw [hredT, habs, wrap64_add_right]
    exact wrap64_emod _
  · rw [habs, sub_neg_eq_add] at h ⊢
    rw [haddT]
    exact wrap64_eq_self h
  · rw [habs] at h ⊢
    rw [hredT, wrap64_add_right]
    exact wrap64_eq_self h

/-- **C10, witness.**  From the zero gauge, `count=-3` passes validation:
`/cart/add?count=-3` is accepted and moves the gauge to `-3 = 0 - |-3|`. -/
theorem c10_negative_counts_witness :
    (-3 : Int) < 0 ∧
      (handle initialState (.cartAdd (some (-3)))).2.statusCode = 200 ∧
      isInt64 (initialState.metrics.totalCartItems - |(-3 : Int)|) ∧
      (handle initialState (.cartAdd (some (-3)))).1.metrics.totalCartItems =
        initialState.metrics.totalCartItems - |(-3 : Int)| :=
  ⟨by decide, (c10_negative_counts initialState (-3) (by decide)).2.1, by decide,
    (c10_negative_counts initialState (-3) (by decide)).2.2.2.2.2.1 (by decide)⟩

end FiberOtel
